import Mathlib

/-!
Shallow embedding of the aibrix sliding-window metric aggregation engine:
the dual-window (KPA) and single-window (APA) autoscaling metric clients
(`pkg/autoscaler/metrics`), and the cache the `Store` metric refresh pipeline
(`pkg/cache`).

Conventions of the embedding:
* Go `float64` values are modelled as exact rationals (`ℚ`); the claims under
  study concern aggregation structure (which value is recorded, which error is
  returned), not floating-point rounding.
* Go `time.Time` / `time.Duration` are modelled as natural numbers in seconds
  for the window clients (the clients configure durations of 60s/10s and a
  granularity of 1s), and in nanoseconds for the trace-alignment and
  refresh-interval code, matching the unit of each call site.
* Fallible Go functions returning `(T, error)` become `Except` / `Option`
  results; Go methods that mutate their receiver become explicit
  state-passing functions returning the new state.
* Go maps are modelled as association lists with last-write-wins update;
  map iteration order is irrelevant to every property proved here.
-/

namespace Aibrix

/-- Composite key (namespace, name, metric identifier) for one aggregated
time series, `NamespaceNameMetric` in the source. -/
structure NamespaceNameMetric where
  ns : String
  name : String
  metricName : String
deriving DecidableEq, Repr

/-- Error outcomes of the metric clients: a window dictionary miss
(`fmt.Errorf("... metrics %s not found", ...)` in the source, the spec name
KeyNotFound) carrying which dictionary missed, or the window-level EmptyWindow
error. -/
inductive MErr where
  | keyNotFound (which : String)
  | emptyWindow
deriving DecidableEq, Repr

/-- Modelled from the spec: the `aggregation.TimeWindow` implementation is not
among the source files (only its callers are); §4.1 of the spec defines it as a
fixed-size ring of `duration/granularity` buckets, each bucket holding
(bucket-start-timestamp, recorded-value, populated-flag). A bucket is
`none` when unpopulated. -/
structure TimeWindow where
  duration : ℕ
  granularity : ℕ
  buckets : List (Option (ℕ × ℚ))
deriving DecidableEq, Repr

/-- Modelled from the spec: `NewTimeWindow(duration, granularity)` allocates
the ring of `duration/granularity` unpopulated buckets. -/
def NewTimeWindow (duration granularity : ℕ) : TimeWindow :=
  { duration := duration, granularity := granularity,
    buckets := List.replicate (duration / granularity) none }

/-- Modelled from the spec: `Record(timestamp, value)` maps the timestamp to
bucket index `floor(timestamp/granularity) mod bucketCount` and overwrites that
bucket with (bucket-start, value, populated) — last write within a bucket
wins, and reuse of a slot by a later cycle ages out the old occupant. -/
def TimeWindow.Record (w : TimeWindow) (timestamp : ℕ) (value : ℚ) : TimeWindow :=
  let idx := (timestamp / w.granularity) % w.buckets.length
  let start := (timestamp / w.granularity) * w.granularity
  { w with buckets := w.buckets.set idx (some (start, value)) }

/-- The in-range test of the averaging loop: the bucket start lies in
`[now - duration, now]` (natural-number subtraction truncates at 0, matching
nonnegative wall-clock times). -/
def TimeWindow.inRange (duration now : ℕ) (bv : ℕ × ℚ) : Bool :=
  decide (now - duration ≤ bv.1 ∧ bv.1 ≤ now)

/-- One step of the averaging loop: a populated bucket whose start lies in
`[now - duration, now]` contributes its value to the running (sum, count);
unpopulated or out-of-range buckets contribute nothing. -/
def TimeWindow.avgStep (duration now : ℕ) (acc : ℚ × ℕ) (b : Option (ℕ × ℚ)) : ℚ × ℕ :=
  match b with
  | none => acc
  | some bv => if TimeWindow.inRange duration now bv then (acc.1 + bv.2, acc.2 + 1) else acc

/-- Modelled from the spec: `Avg(now)` sums populated buckets whose start lies
in `[now-duration, now]` and divides by their count; it fails with EmptyWindow
when that count is zero. -/
def TimeWindow.Avg (w : TimeWindow) (now : ℕ) : Except MErr ℚ :=
  let sc := w.buckets.foldl (TimeWindow.avgStep w.duration now) (0, 0)
  if sc.2 = 0 then .error .emptyWindow else .ok (sc.1 / (sc.2 : ℚ))

/-- The populated buckets whose start lies in `[now-duration, now]`, stated in
the spec wording ("populated buckets whose start ∈ [now-duration, now]"); used
only to state the averaging claim, to be compared with `TimeWindow.Avg`. -/
def TimeWindow.validBuckets (w : TimeWindow) (now : ℕ) : List (ℕ × ℚ) :=
  (w.buckets.filterMap id).filter (TimeWindow.inRange w.duration now)

/-- Association-list lookup, modelling Go map read (missing key yields the
zero value, modelled as `none`). -/
def alookup {α β : Type} [DecidableEq α] : List (α × β) → α → Option β
  | [], _ => none
  | (a, b) :: t, k => if a = k then some b else alookup t k

/-- Association-list write, modelling Go map assignment: replaces the entry
for the key if present, otherwise adds it. -/
def aset {α β : Type} [DecidableEq α] : List (α × β) → α → β → List (α × β)
  | [], k, v => [(k, v)]
  | (a, b) :: t, k, v => if a = k then (k, v) :: t else (a, b) :: aset t k v

/-- Dictionary from metric keys to time windows (`map[NamespaceNameMetric]*aggregation.TimeWindow`). -/
abbrev WindowDict := List (NamespaceNameMetric × TimeWindow)

/-- State of the dual-window KPA metrics client: configured durations and
granularity, plus the lazily populated panic and stable window dictionaries.
The mutex of the source serializes access and is not part of the state. -/
structure KPAMetricsClient where
  stableDuration : ℕ
  panicDuration : ℕ
  granularity : ℕ
  panicWindowDict : WindowDict
  stableWindowDict : WindowDict
deriving DecidableEq, Repr

/-- `NewKPAMetricsClient`: stable 60s, panic 10s, granularity 1s, empty
dictionaries (times in seconds). -/
def NewKPAMetricsClient : KPAMetricsClient :=
  { stableDuration := 60, panicDuration := 10, granularity := 1,
    panicWindowDict := [], stableWindowDict := [] }

/-- The `updateWindow` closure of `UpdateMetricIntoWindow`: create the window
for the key if absent (with the given duration and the client granularity),
then record `(now, value)` into it. -/
def updateWindow (windowDict : WindowDict) (metricKey : NamespaceNameMetric)
    (duration granularity : ℕ) (now : ℕ) (metricValue : ℚ) : WindowDict :=
  match alookup windowDict metricKey with
  | none => aset windowDict metricKey ((NewTimeWindow duration granularity).Record now metricValue)
  | some window => aset windowDict metricKey (window.Record now metricValue)

/-- `KPAMetricsClient.UpdateMetricIntoWindow`: records `(now, value)` into
both the panic and the stable window of the key, creating either lazily.
The source always returns a nil error, so the embedding returns the new state. -/
def KPAMetricsClient.UpdateMetricIntoWindow (c : KPAMetricsClient)
    (metricKey : NamespaceNameMetric) (now : ℕ) (metricValue : ℚ) : KPAMetricsClient :=
  { c with
    panicWindowDict := updateWindow c.panicWindowDict metricKey c.panicDuration c.granularity now metricValue,
    stableWindowDict := updateWindow c.stableWindowDict metricKey c.stableDuration c.granularity now metricValue }

/-- `KPAMetricsClient.UpdatePodListMetric`: sums the per-pod values with a
running loop and forwards the sum to `UpdateMetricIntoWindow`. -/
def KPAMetricsClient.UpdatePodListMetric (c : KPAMetricsClient)
    (metricValues : List ℚ) (metricKey : NamespaceNameMetric) (now : ℕ) : KPAMetricsClient :=
  let sumMetricValue := metricValues.foldl (fun a b => a + b) 0
  c.UpdateMetricIntoWindow metricKey now sumMetricValue

/-- `KPAMetricsClient.StableAndPanicMetrics`: looks up the panic window (miss
fails with KeyNotFound), takes its average, looks up the stable window (miss
fails with KeyNotFound), takes its average, and only then returns the pair
(stable, panic). The Go version returns `(-1, -1, err)` on failure; the
embedding returns `Except`, the `-1` placeholders accompanying a non-nil
error. The unused `now` of the source signature is passed to the
spec-modelled window average. -/
def KPAMetricsClient.StableAndPanicMetrics (c : KPAMetricsClient)
    (metricKey : NamespaceNameMetric) (now : ℕ) : Except MErr (ℚ × ℚ) :=
  match alookup c.panicWindowDict metricKey with
  | none => .error (.keyNotFound "panic")
  | some panicWindow =>
    match panicWindow.Avg now with
    | .error e => .error e
    | .ok panicValue =>
      match alookup c.stableWindowDict metricKey with
      | none => .error (.keyNotFound "stable")
      | some stableWindow =>
        match stableWindow.Avg now with
        | .error e => .error e
        | .ok stableValue => .ok (stableValue, panicValue)

/-- State of the single-window APA metrics client. -/
structure APAMetricsClient where
  duration : ℕ
  granularity : ℕ
  windowDict : WindowDict
deriving DecidableEq, Repr

/-- `NewAPAMetricsClient`: duration 60s, granularity 1s, empty dictionary. -/
def NewAPAMetricsClient : APAMetricsClient :=
  { duration := 60, granularity := 1, windowDict := [] }

/-- `APAMetricsClient.UpdateMetricIntoWindow`: records into the single window
of the key, creating it lazily. -/
def APAMetricsClient.UpdateMetricIntoWindow (c : APAMetricsClient)
    (metricKey : NamespaceNameMetric) (now : ℕ) (metricValue : ℚ) : APAMetricsClient :=
  { c with windowDict := updateWindow c.windowDict metricKey c.duration c.granularity now metricValue }

/-- `APAMetricsClient.UpdatePodListMetric`: sums the per-pod values and
forwards the sum to `UpdateMetricIntoWindow`. -/
def APAMetricsClient.UpdatePodListMetric (c : APAMetricsClient)
    (metricValues : List ℚ) (metricKey : NamespaceNameMetric) (now : ℕ) : APAMetricsClient :=
  let sumMetricValue := metricValues.foldl (fun a b => a + b) 0
  c.UpdateMetricIntoWindow metricKey now sumMetricValue

/-- `APAMetricsClient.GetMetricValue`: window dictionary miss fails with
KeyNotFound, otherwise the window average (which may fail with EmptyWindow). -/
def APAMetricsClient.GetMetricValue (c : APAMetricsClient)
    (metricKey : NamespaceNameMetric) (now : ℕ) : Except MErr ℚ :=
  match alookup c.windowDict metricKey with
  | none => .error (.keyNotFound "metrics")
  | some window =>
    match window.Avg now with
    | .error e => .error e
    | .ok metricValue => .ok metricValue

/-- Outcome of calling a Go function that may panic instead of returning. -/
inductive GoOutcome (α : Type) where
  | panicked (msg : String)
  | returned (val : α)
deriving DecidableEq, Repr

/-- The base `PodMetricClient.UpdatePodListMetric`: the body is a single
`panic("implement me")`; its declared error return is never produced. -/
def PodMetricClient.UpdatePodListMetric (metricValues : List ℚ)
    (metricKey : NamespaceNameMetric) (now : ℕ) : GoOutcome (Option String) :=
  .panicked "implement me"

/-- `PodMetricClient.GetMetricsFromPods`, parameterized by the fetcher: fetches
each pod metric in order; the first fetch error aborts the loop and is
returned (with a nil slice), discarding every already-fetched value. -/
def PodMetricClient.GetMetricsFromPods (fetch : String → Except String ℚ) :
    List String → Except String (List ℚ)
  | [] => .ok []
  | pod :: pods =>
    match fetch pod with
    | .error e => .error e
    | .ok metric =>
      match PodMetricClient.GetMetricsFromPods fetch pods with
      | .error e => .error e
      | .ok rest => .ok (metric :: rest)

/-! ## Cache store metric refresh pipeline (`pkg/cache`) -/

/-- `metrics.MetricScope`: whether a metric is keyed per pod or per
(pod, model) pair. -/
inductive MetricScope where
  | podMetricScope
  | podModelMetricScope
deriving DecidableEq, Repr

/-- `metrics.MetricValue`: closed union of the concrete metric value kinds
recorded by the pipeline. -/
inductive MetricValue where
  | simple (value : ℚ)
  | histogram (sum : ℚ) (count : ℚ) (buckets : List (String × ℚ))
  | labelValue (value : String)
  | prometheusResult (result : String)
deriving DecidableEq, Repr

/-- Error returned by `updatePodRecordLocked` when a write violates the
declared scope of a metric. -/
inductive UpdateErr where
  | scopeMismatch (msg : String)
deriving DecidableEq, Repr

/-- A metric definition from the registry `metrics.Metrics` (the registry
lives in the external metrics package); fields as used by the pipeline. -/
structure Metric where
  metricScope : MetricScope
  rawMetricName : String
  promQL : String
deriving DecidableEq, Repr

/-- The outcome of the external histogram parser `metrics.GetHistogramValue`. -/
structure HistogramParse where
  sum : ℚ
  count : ℚ
  buckets : List (String × ℚ)
deriving DecidableEq, Repr

/-- Equality of `Except` outcomes is decidable when it is on both components. -/
instance {α β : Type} [DecidableEq α] [DecidableEq β] : DecidableEq (Except α β) := fun x y =>
  match x, y with
  | .error a, .error b =>
    if h : a = b then .isTrue (congrArg Except.error h)
    else .isFalse (fun hh => h (Except.error.inj hh))
  | .error _, .ok _ => .isFalse (fun hh => Except.noConfusion hh)
  | .ok _, .error _ => .isFalse (fun hh => Except.noConfusion hh)
  | .ok a, .ok b =>
    if h : a = b then .isTrue (congrArg Except.ok h)
    else .isFalse (fun hh => h (Except.ok.inj hh))

/-- One sample of a scraped metric family (`dto.Metric`): its labels, and the
outcomes of the external value parsers on it (`metrics.GetCounterGaugeValue`,
`metrics.GetHistogramValue` — exposition-format parsing is an external
collaborator, so its results are data of the embedding). -/
structure FamilyMetric where
  labels : List (String × String)
  counterGaugeValue : Except String ℚ
  histogramValue : Except String HistogramParse
deriving DecidableEq, Repr

/-- A scraped metric family (`dto.MetricFamily`): its list of samples. -/
structure MetricFamily where
  metric : List FamilyMetric
deriving DecidableEq, Repr

/-- The parsed scrape payload of one pod: family name to family
(`map[string]*dto.MetricFamily`). -/
abbrev AllMetrics := List (String × MetricFamily)

/-- `metrics.GetLabelValueForKey` (external metrics package, modelled from its
use): the value of a label on a sample; callers discard the ok flag, so a
missing label yields the empty string, the Go zero value. -/
def getLabelValueForKey (familyMetric : FamilyMetric) (key : String) : String :=
  (alookup familyMetric.labels key).getD ""

/-- The raw metric tables of the store: `PodMetrics`
(pod name → metric name → value) and `PodModelMetrics`
(pod name → model name → metric name → value). -/
structure MetricTables where
  podMetrics : List (String × List (String × MetricValue))
  podModelMetrics : List (String × List (String × List (String × MetricValue)))
deriving DecidableEq, Repr

/-- Value read through the two-level `PodMetrics` table. -/
def podMetricLookup (t : MetricTables) (podName metricName : String) : Option MetricValue :=
  (alookup t.podMetrics podName).bind (fun inner => alookup inner metricName)

/-- Value read through the three-level `PodModelMetrics` table. -/
def podModelMetricLookup (t : MetricTables) (podName modelName metricName : String) :
    Option MetricValue :=
  ((alookup t.podModelMetrics podName).bind (fun mid => alookup mid modelName)).bind
    (fun inner => alookup inner metricName)

/-- `Store.updatePodRecordLocked`: writes one record into the table selected
by the declared scope of the metric, after checking the scope invariant — a
pod-scope update must carry an empty model name and a pod-model-scope update a
non-empty one; a violation returns a scope-mismatch error before any write, so
the tables come back untouched. Reads of missing outer entries yield the empty
inner table (`getD []`): the Go code writes through inner maps that
`updatePodMetrics` pre-creates for every processed pod. -/
def updatePodRecordLocked (t : MetricTables) (podName modelName metricName : String)
    (scope : MetricScope) (metricValue : MetricValue) : Option UpdateErr × MetricTables :=
  match scope with
  | .podMetricScope =>
    if modelName ≠ "" then
      (some (.scopeMismatch "modelName should be empty for scope PodMetricScope"), t)
    else
      let inner := (alookup t.podMetrics podName).getD []
      (none, { t with podMetrics := aset t.podMetrics podName (aset inner metricName metricValue) })
  | .podModelMetricScope =>
    if modelName = "" then
      (some (.scopeMismatch "modelName should not be empty for scope PodModelMetricScope"), t)
    else
      let mid := (alookup t.podModelMetrics podName).getD []
      let inner := (alookup mid modelName).getD []
      let written := aset t.podModelMetrics podName (aset mid modelName (aset inner metricName metricValue))
      (none, { t with podModelMetrics := written })

/-- A pod as the pipeline sees it: name, IP, and the readiness predicate the
external informer layer supplies (`utils.FilterReadyPods` keeps ready pods). -/
structure Pod where
  name : String
  podIP : String
  ready : Bool
deriving DecidableEq, Repr

/-- The metrics port scraped on every pod (`podPort`). -/
def podPort : ℕ := 8000

/-- The store state the refresh pipeline touches: the raw metric tables, the
pod set, and the pod-to-model membership mapping. -/
structure Store where
  tables : MetricTables
  pods : List Pod
  podToModelMapping : List (String × List String)
deriving DecidableEq, Repr

/-- The externally supplied collaborators the pipeline closes over: the global
metric-name lists and registry (external metrics package), the scrape-and-parse
of one URL (`metrics.ParseMetricsURL`), and the optional Prometheus query
backend (`prometheusApi` with `BuildQuery` and `Query` folded into one call on
the PromQL template and its labels; `none` models a nil `prometheusApi`). -/
structure Config where
  registry : List (String × Metric)
  counterGaugeMetricNames : List String
  histogramMetricNames : List String
  prometheusMetricNames : List String
  labelQueryMetricNames : List String
  parseMetricsURL : String → Except String AllMetrics
  promQuery : Option (String → List (String × String) → Except String String)

/-- `Store.updateSimpleMetricFromRawMetricsLocked`: for each counter/gauge
metric name, look up its registry definition and its scraped family; for each
sample, take the model-name label and the parsed value, and record a simple
value under the metric scope. Parse or record errors are logged and skip
only that sample. -/
def updateSimpleMetricFromRawMetricsLocked (cfg : Config) (pod : Pod)
    (allMetrics : AllMetrics) (t : MetricTables) : MetricTables :=
  cfg.counterGaugeMetricNames.foldl (fun t metricName =>
    match alookup cfg.registry metricName with
    | none => t
    | some metric =>
      match alookup allMetrics ("vllm:" ++ metricName) with
      | none => t
      | some metricFamily =>
        metricFamily.metric.foldl (fun t familyMetric =>
          let modelName := getLabelValueForKey familyMetric "model_name"
          match familyMetric.counterGaugeValue with
          | .error _ => t
          | .ok metricValue =>
            (updatePodRecordLocked t pod.name modelName metricName metric.metricScope
              (.simple metricValue)).2) t) t

/-- `Store.updateHistogramMetricFromRawMetricsLocked`: same walk for the
histogram family, recording (sum, count, buckets) verbatim. -/
def updateHistogramMetricFromRawMetricsLocked (cfg : Config) (pod : Pod)
    (allMetrics : AllMetrics) (t : MetricTables) : MetricTables :=
  cfg.histogramMetricNames.foldl (fun t metricName =>
    match alookup cfg.registry metricName with
    | none => t
    | some metric =>
      match alookup allMetrics ("vllm:" ++ metricName) with
      | none => t
      | some metricFamily =>
        metricFamily.metric.foldl (fun t familyMetric =>
          let modelName := getLabelValueForKey familyMetric "model_name"
          match familyMetric.histogramValue with
          | .error _ => t
          | .ok h =>
            (updatePodRecordLocked t pod.name modelName metricName metric.metricScope
              (.histogram h.sum h.count h.buckets)).2) t) t

/-- `Store.updateQueryLabelMetricFromRawMetricsLocked`: for each label-query
metric, the family is looked up under the registry raw metric name and the
output value is a label of the sample. -/
def updateQueryLabelMetricFromRawMetricsLocked (cfg : Config) (pod : Pod)
    (allMetrics : AllMetrics) (t : MetricTables) : MetricTables :=
  cfg.labelQueryMetricNames.foldl (fun t labelMetricName =>
    match alookup cfg.registry labelMetricName with
    | none => t
    | some metric =>
      match alookup allMetrics ("vllm:" ++ metric.rawMetricName) with
      | none => t
      | some metricFamily =>
        metricFamily.metric.foldl (fun t familyMetric =>
          let modelName := getLabelValueForKey familyMetric "model_name"
          let labelValue := getLabelValueForKey familyMetric labelMetricName
          (updatePodRecordLocked t pod.name modelName labelMetricName metric.metricScope
            (.labelValue labelValue)).2) t) t

/-- `Store.queryUpdatePromQLMetricsLocked`: issue the templated query; a query
error skips the record, otherwise the result is recorded under the metric
scope. -/
def queryUpdatePromQLMetricsLocked
    (query : String → List (String × String) → Except String String) (metric : Metric)
    (queryLabels : List (String × String)) (podName modelName metricName : String)
    (t : MetricTables) : Option String × MetricTables :=
  match query metric.promQL queryLabels with
  | .error e => (some e, t)
  | .ok result =>
    match updatePodRecordLocked t podName modelName metricName metric.metricScope
      (.prometheusResult result) with
    | (some _, t2) => (some "failed to update metrics from prometheus", t2)
    | (none, t2) => (none, t2)

/-- `Store.updateMetricFromPromQLLocked`: for each Prometheus-backed metric,
query per pod (pod scope) or per (pod, model currently mapped to the pod)
(pod-model scope); query failures are logged and skip that metric. -/
def updateMetricFromPromQLLocked (cfg : Config)
    (query : String → List (String × String) → Except String String)
    (podToModelMapping : List (String × List String)) (pod : Pod)
    (t : MetricTables) : MetricTables :=
  cfg.prometheusMetricNames.foldl (fun t metricName =>
    let queryLabels := [("instance", pod.podIP ++ ":" ++ toString podPort)]
    match alookup cfg.registry metricName with
    | none => t
    | some metric =>
      match metric.metricScope with
      | .podMetricScope =>
        (queryUpdatePromQLMetricsLocked query metric queryLabels pod.name "" metricName t).2
      | .podModelMetricScope =>
        match alookup podToModelMapping pod.name with
        | some modelNames =>
          modelNames.foldl (fun t modelName =>
            (queryUpdatePromQLMetricsLocked query metric
              (queryLabels ++ [("model_name", modelName)]) pod.name modelName metricName t).2) t
        | none => t) t

/-- The two initialization lines at the top of the per-pod loop body: create
the per-pod (empty) inner tables when absent or empty. Value lookups are
unaffected. -/
def initPodEntries (t : MetricTables) (podName : String) : MetricTables :=
  let t1 :=
    if ((alookup t.podMetrics podName).getD []).length = 0 then
      { t with podMetrics := aset t.podMetrics podName [] }
    else t
  if ((alookup t1.podModelMetrics podName).getD []).length = 0 then
    { t1 with podModelMetrics := aset t1.podModelMetrics podName [] }
  else t1

/-- The scrape URL of a pod: `http://<ip>:<port>/metrics`. -/
def podScrapeURL (pod : Pod) : String :=
  "http://" ++ pod.podIP ++ ":" ++ toString podPort ++ "/metrics"

/-- Lock/unlock and per-pod-update events of one refresh cycle, used to state
the lock-granularity properties of `updatePodMetrics`. -/
inductive Event where
  | lock
  | unlock
  | podUpdate (podName : String)
deriving DecidableEq, Repr

/-- The body of the per-pod loop of `updatePodMetrics`: initialize the per-pod
table entries, scrape and parse its metrics endpoint — a parse error is
logged and the loop continues with the nil (empty) payload — then apply the
three raw-metric family updates and, when a Prometheus backend is configured,
the PromQL update. -/
def updateOnePod (cfg : Config) (podToModelMapping : List (String × List String))
    (t : MetricTables) (pod : Pod) : MetricTables :=
  let t := initPodEntries t pod.name
  let allMetrics :=
    match cfg.parseMetricsURL (podScrapeURL pod) with
    | .error _ => []
    | .ok m => m
  let t := updateSimpleMetricFromRawMetricsLocked cfg pod allMetrics t
  let t := updateHistogramMetricFromRawMetricsLocked cfg pod allMetrics t
  let t := updateQueryLabelMetricFromRawMetricsLocked cfg pod allMetrics t
  match cfg.promQuery with
  | none => t
  | some query => updateMetricFromPromQLLocked cfg query podToModelMapping pod t

/-- `Store.updatePodMetrics`: takes the exclusive lock, iterates every ready
pod applying `updateOnePod`, and releases the lock on exit (`defer`). The
second component is the event trace of the cycle: one lock acquisition, the
per-pod updates, one release. -/
def updatePodMetrics (cfg : Config) (s : Store) : Store × List Event :=
  let readyPods := s.pods.filter (fun p => p.ready)
  if readyPods.length = 0 then
    (s, [Event.lock, Event.unlock])
  else
    ({ s with tables := readyPods.foldl (updateOnePod cfg s.podToModelMapping) s.tables },
     [Event.lock] ++ readyPods.map (fun p => Event.podUpdate p.name) ++ [Event.unlock])

/-- Detector for the event-trace shape the per-instance-locking claim implies:
`true` iff between every two consecutive per-pod updates the lock is released
at least once. Holding the lock across two updates makes it `false`. -/
def releasedBetweenGo (seenUpdate unlockSince : Bool) : List Event → Bool
  | [] => true
  | Event.podUpdate _ :: rest =>
    if seenUpdate && !unlockSince then false else releasedBetweenGo true false rest
  | Event.unlock :: rest => releasedBetweenGo seenUpdate true rest
  | Event.lock :: rest => releasedBetweenGo seenUpdate unlockSince rest

/-- Entry point of the between-updates lock-release detector. -/
def lockReleasedBetweenUpdates (trace : List Event) : Bool :=
  releasedBetweenGo false false trace

/-! ## Periodic drivers: trace alignment and refresh interval -/

/-- How the trace-persistence loop starts ticking: a one-shot alignment timer
of the given delay followed by the periodic ticker, or the periodic ticker
immediately. -/
inductive AlignStart where
  | alignTimer (delay : ℕ)
  | tickerNow
deriving DecidableEq, Repr

/-- The first-tick decision of `initTraceCache` (times in nanoseconds): the
offset of the current time into the write interval is compared against the
maximum tolerated offset; only above it does the loop take the one-shot
alignment timer of `interval - offset`, otherwise the periodic ticker starts
immediately. -/
def initTraceCacheTickChoice (nowNanos interval maxOffset : ℕ) : AlignStart :=
  let tickerOffset := nowNanos % interval
  if tickerOffset > maxOffset then .alignTimer (interval - tickerOffset)
  else .tickerNow

/-- The wall-clock time of the first tick under either start mode: after the
one-shot delay, or one full interval after an immediate ticker start. -/
def firstTickTime (nowNanos interval : ℕ) : AlignStart → ℕ
  | .alignTimer delay => nowNanos + delay
  | .tickerNow => nowNanos + interval

/-- Digit-list parser underlying the `strconv.Atoi` model. -/
def parseDigits : List Char → Option ℕ
  | [] => some 0
  | c :: rest =>
    if c.isDigit then
      match parseDigits rest with
      | none => none
      | some n => some (n + (c.toNat - 48) * 10 ^ rest.length)
    else none

/-- `strconv.Atoi`: optional sign, at least one digit, all digits, result
within the 64-bit int range (out-of-range input returns an error together with
a clamped value the caller discards). -/
def atoi (s : String) : Option ℤ :=
  match s.toList with
  | [] => none
  | '+' :: rest =>
    if rest = [] then none
    else match parseDigits rest with
      | none => none
      | some n => if (n : ℤ) ≤ 2 ^ 63 - 1 then some (n : ℤ) else none
  | '-' :: rest =>
    if rest = [] then none
    else match parseDigits rest with
      | none => none
      | some n => if (n : ℤ) ≤ 2 ^ 63 then some (-(n : ℤ)) else none
  | l =>
    match parseDigits l with
    | none => none
    | some n => if (n : ℤ) ≤ 2 ^ 63 - 1 then some (n : ℤ) else none

/-- Twos-complement wraparound of a mathematical integer into `int64`, the
arithmetic Go performs on `time.Duration` multiplication. -/
def wrap64 (z : ℤ) : ℤ :=
  (z + 2 ^ 63) % 2 ^ 64 - 2 ^ 63

/-- The default refresh interval, in milliseconds (`defaultPodMetricRefreshIntervalInMS`). -/
def defaultPodMetricRefreshIntervalInMS : ℕ := 50

/-- `getPodMetricRefreshInterval`, returning nanoseconds as the Go `int64`
`time.Duration`: the empty string models an unset environment variable
(`utils.LoadEnv` default); a value parsing to a positive integer n yields
`time.Duration(n) * time.Millisecond`, computed with int64 wraparound;
anything else falls back to the 50ms default. -/
def getPodMetricRefreshInterval (value : String) : ℤ :=
  if value ≠ "" then
    match atoi value with
    | none => (defaultPodMetricRefreshIntervalInMS : ℤ) * 1000000
    | some intValue =>
      if intValue ≤ 0 then (defaultPodMetricRefreshIntervalInMS : ℤ) * 1000000
      else wrap64 (intValue * 1000000)
  else (defaultPodMetricRefreshIntervalInMS : ℤ) * 1000000

/-! ## Concrete instances used by witnesses and counterexamples -/

/-- A concrete metric key. -/
def demoKey : NamespaceNameMetric :=
  { ns := "default", name := "deploy", metricName := "qps" }

/-- The spec scenario window: granularity 1s, duration 10s, value 5 recorded
at t = 0, 1, ..., 9. -/
def scenarioWindow : TimeWindow :=
  (List.range 10).foldl (fun w t => w.Record t 5) (NewTimeWindow 10 1)

/-- A fetcher that fails on pod-a and succeeds on pod-b. -/
def demoFetch : String → Except String ℚ :=
  fun pod => if pod = "pod-a" then .error "fetch failed" else .ok 1

/-- A scrape-and-parse collaborator that fails on every URL. -/
def demoParse : String → Except String AllMetrics :=
  fun _ => .error "connection refused"

/-- A pipeline configuration with no Prometheus backend and a failing scraper. -/
def demoCfg : Config :=
  { registry := [], counterGaugeMetricNames := [], histogramMetricNames := [],
    prometheusMetricNames := [], labelQueryMetricNames := [],
    parseMetricsURL := demoParse, promQuery := none }

/-- A ready pod named pod-a. -/
def demoPodA : Pod := { name := "pod-a", podIP := "10.0.0.1", ready := true }

/-- A ready pod named pod-b. -/
def demoPodB : Pod := { name := "pod-b", podIP := "10.0.0.2", ready := true }

/-- A store holding the two demo pods and empty metric tables. -/
def demoStore : Store :=
  { tables := { podMetrics := [], podModelMetrics := [] },
    pods := [demoPodA, demoPodB], podToModelMapping := [] }

/-- A metric table with one existing pod-scope record, used to check that
failed updates leave it untouched. -/
def demoTables : MetricTables :=
  { podMetrics := [("pod-a", [("qps", MetricValue.simple 3)])], podModelMetrics := [] }

/-- Both row views of a pod are unchanged between two tables; the shape in
which per-pod isolation of the refresh pipeline is stated. -/
def RowsPreserved (p : String) (t t2 : MetricTables) : Prop :=
  (∀ m, podMetricLookup t2 p m = podMetricLookup t p m) ∧
  (∀ model m, podModelMetricLookup t2 p model m = podModelMetricLookup t p model m)

/-! ## Association list lemmas -/

theorem alookup_aset_self {α β : Type} [DecidableEq α] (l : List (α × β)) (k : α) (v : β) :
    alookup (aset l k v) k = some v := by
  induction l with
  | nil => simp [aset, alookup]
  | cons hd tl ih =>
    by_cases h : hd.1 = k
    · simp [aset, h, alookup]
    · simp [aset, h, alookup, ih]

theorem alookup_aset_ne {α β : Type} [DecidableEq α] (l : List (α × β)) (k k2 : α) (v : β)
    (h : k2 ≠ k) : alookup (aset l k v) k2 = alookup l k2 := by
  induction l with
  | nil => simp [aset, alookup, Ne.symm h]
  | cons hd tl ih =>
    obtain ⟨a, b⟩ := hd
    by_cases hk : a = k
    · subst hk
      simp [aset, alookup, Ne.symm h]
    · simp [aset, hk, alookup, ih]

/-! ## TimeWindow averaging lemmas -/

theorem avgStep_foldl (duration now : ℕ) (l : List (Option (ℕ × ℚ))) (acc : ℚ × ℕ) :
    l.foldl (TimeWindow.avgStep duration now) acc =
      (acc.1 + (((l.filterMap id).filter (TimeWindow.inRange duration now)).map Prod.snd).sum,
       acc.2 + ((l.filterMap id).filter (TimeWindow.inRange duration now)).length) := by
  induction l generalizing acc with
  | nil => simp
  | cons hd tl ih =>
    cases hd with
    | none => simpa [TimeWindow.avgStep] using ih acc
    | some bv =>
      rw [List.foldl_cons, ih]
      cases hr : TimeWindow.inRange duration now bv
      · simp [TimeWindow.avgStep, hr, List.filterMap_cons, List.filter_cons]
      · simp only [TimeWindow.avgStep, hr, if_true, List.filterMap_cons, id_eq,
          List.filter_cons, List.map_cons, List.sum_cons, List.length_cons, Prod.mk.injEq]
        exact ⟨by ring, by omega⟩

theorem TimeWindow.avg_eq (w : TimeWindow) (now : ℕ) :
    w.Avg now =
      if (w.validBuckets now).length = 0 then Except.error MErr.emptyWindow
      else Except.ok (((w.validBuckets now).map Prod.snd).sum / ((w.validBuckets now).length : ℚ)) := by
  simp only [TimeWindow.Avg, avgStep_foldl, TimeWindow.validBuckets, zero_add, Nat.zero_add]

/-- Claim C2: for every TimeWindow and query time now, Avg(now) equals the
unweighted mean of the populated buckets whose start lies in
[now-duration, now] and fails with EmptyWindow exactly when no bucket in that
range is populated; stale buckets contribute nothing. The spec scenario
(granularity 1s, duration 10s, value 5 at t = 0..9) yields exactly 5 at
Avg(10) and EmptyWindow at Avg(20), so the result depends on the reader-supplied now. -/
theorem timeWindow_avg_unweighted_mean (w : TimeWindow) (now : ℕ) :
    (w.Avg now =
      if (w.validBuckets now).length = 0 then Except.error MErr.emptyWindow
      else Except.ok (((w.validBuckets now).map Prod.snd).sum / ((w.validBuckets now).length : ℚ)))
    ∧ scenarioWindow.Avg 10 = .ok 5
    ∧ scenarioWindow.Avg 20 = .error .emptyWindow := by
  refine ⟨TimeWindow.avg_eq w now, ?_, ?_⟩
  · rw [TimeWindow.avg_eq]
    have hv : scenarioWindow.validBuckets 10 =
        [(0, 5), (1, 5), (2, 5), (3, 5), (4, 5), (5, 5), (6, 5), (7, 5), (8, 5), (9, 5)] := by
      decide
    rw [hv]
    norm_num
  · rw [TimeWindow.avg_eq]
    have hv : scenarioWindow.validBuckets 20 = [] := by decide
    rw [hv]
    simp

theorem TimeWindow.avg_error (w : TimeWindow) (now : ℕ) (e : MErr)
    (h : w.Avg now = .error e) : e = .emptyWindow := by
  rw [TimeWindow.avg_eq] at h
  split at h
  · injection h with h2
    exact h2.symm
  · exact Except.noConfusion h

theorem foldl_avgStep_replicate (duration now n : ℕ) (acc : ℚ × ℕ) :
    (List.replicate n (none : Option (ℕ × ℚ))).foldl (TimeWindow.avgStep duration now) acc
      = acc := by
  induction n generalizing acc with
  | zero => rfl
  | succ m ih => simp [List.replicate_succ, TimeWindow.avgStep, ih]

theorem foldl_avgStep_replicate_set (duration now n i : ℕ) (x : ℕ × ℚ) (acc : ℚ × ℕ)
    (hi : i < n) :
    ((List.replicate n (none : Option (ℕ × ℚ))).set i (some x)).foldl
      (TimeWindow.avgStep duration now) acc = TimeWindow.avgStep duration now acc (some x) := by
  induction n generalizing i acc with
  | zero => omega
  | succ m ih =>
    cases i with
    | zero =>
      simp only [List.replicate_succ, List.set_cons_zero, List.foldl_cons]
      exact foldl_avgStep_replicate duration now m _
    | succ j =>
      simp only [List.replicate_succ, List.set_cons_succ, List.foldl_cons]
      have hstep : TimeWindow.avgStep duration now acc none = acc := rfl
      rw [hstep]
      exact ih j acc (by omega)

theorem avg_record_fresh (d now : ℕ) (v : ℚ) (hd : 0 < d) :
    ((NewTimeWindow d 1).Record now v).Avg now = .ok v := by
  simp only [NewTimeWindow, TimeWindow.Record, TimeWindow.Avg, List.length_replicate,
    Nat.div_one, mul_one]
  rw [foldl_avgStep_replicate_set d now d (now % d) (now, v) (0, 0) (Nat.mod_lt now hd)]
  have hr : TimeWindow.inRange d now (now, v) = true := by
    simp [TimeWindow.inRange, Nat.sub_le]
  simp [TimeWindow.avgStep, hr]

theorem kpa_first_update_panic_lookup (key : NamespaceNameMetric) (now : ℕ) (v : ℚ) :
    alookup (NewKPAMetricsClient.UpdateMetricIntoWindow key now v).panicWindowDict key
      = some ((NewTimeWindow 10 1).Record now v) := by
  simp [NewKPAMetricsClient, KPAMetricsClient.UpdateMetricIntoWindow, updateWindow, alookup, aset]

theorem kpa_first_update_stable_lookup (key : NamespaceNameMetric) (now : ℕ) (v : ℚ) :
    alookup (NewKPAMetricsClient.UpdateMetricIntoWindow key now v).stableWindowDict key
      = some ((NewTimeWindow 60 1).Record now v) := by
  simp [NewKPAMetricsClient, KPAMetricsClient.UpdateMetricIntoWindow, updateWindow, alookup, aset]

theorem kpa_first_update_eval (key : NamespaceNameMetric) (now : ℕ) (v : ℚ) :
    (NewKPAMetricsClient.UpdateMetricIntoWindow key now v).StableAndPanicMetrics key now
      = .ok (v, v) := by
  simp [KPAMetricsClient.StableAndPanicMetrics, kpa_first_update_panic_lookup,
    kpa_first_update_stable_lookup, avg_record_fresh 10 now v (by norm_num),
    avg_record_fresh 60 now v (by norm_num)]

/-- Claim C1: for a key whose panic and stable windows exist together or not at
all (as every update creates both), StableAndPanicMetrics is all-or-nothing:
if either window was never created it fails with the key-not-found error; if
both exist and either average is empty-window it fails with EmptyWindow; and
only when both averages succeed does it return the pair (stable, panic). The
`Except` result carries no partial value on failure (the Go -1 placeholders
accompany a non-nil error). -/
theorem kpa_stableAndPanicMetrics_all_or_nothing
    (c : KPAMetricsClient) (key : NamespaceNameMetric) (now : ℕ)
    (hboth : (alookup c.panicWindowDict key).isSome ↔ (alookup c.stableWindowDict key).isSome) :
    ((alookup c.panicWindowDict key = none ∨ alookup c.stableWindowDict key = none) →
      c.StableAndPanicMetrics key now = .error (.keyNotFound "panic"))
    ∧ (∀ pw sw, alookup c.panicWindowDict key = some pw →
        alookup c.stableWindowDict key = some sw →
        ((pw.Avg now = .error .emptyWindow ∨ sw.Avg now = .error .emptyWindow) →
          c.StableAndPanicMetrics key now = .error .emptyWindow)
        ∧ (∀ pv sv, pw.Avg now = .ok pv → sw.Avg now = .ok sv →
          c.StableAndPanicMetrics key now = .ok (sv, pv))) := by
  constructor
  · intro hmiss
    have hp : alookup c.panicWindowDict key = none := by
      rcases hmiss with h | h
      · exact h
      · cases hq : alookup c.panicWindowDict key with
        | none => rfl
        | some w =>
          exfalso
          have := hboth.mp (by simp [hq])
          simp [h] at this
    simp [KPAMetricsClient.StableAndPanicMetrics, hp]
  · intro pw sw hpw hsw
    constructor
    · intro hemp
      rcases hemp with h | h
      · simp [KPAMetricsClient.StableAndPanicMetrics, hpw, h]
      · cases hpa : pw.Avg now with
        | error e =>
          have he := TimeWindow.avg_error pw now e hpa
          subst he
          simp [KPAMetricsClient.StableAndPanicMetrics, hpw, hpa]
        | ok pv => simp [KPAMetricsClient.StableAndPanicMetrics, hpw, hpa, hsw, h]
    · intro pv sv hpa hsa
      simp [KPAMetricsClient.StableAndPanicMetrics, hpw, hpa, hsw, hsa]

/-- Witness for C1: on a fresh client no window exists for the key, and the
call fails with the key-not-found error rather than any value. -/
theorem kpa_stableAndPanicMetrics_all_or_nothing_witness :
    NewKPAMetricsClient.StableAndPanicMetrics demoKey 0 = .error (.keyNotFound "panic") :=
  (kpa_stableAndPanicMetrics_all_or_nothing NewKPAMetricsClient demoKey 0
    (by decide)).1 (Or.inl (by decide))

/-- Claim C3: a single UpdateMetricIntoWindow on a never-updated key lazily
creates both the panic (10s) and stable (60s) windows, records (now, v) into
both, and the immediate StableAndPanicMetrics succeeds with v for both
averages. -/
theorem kpa_single_update_roundtrip (key : NamespaceNameMetric) (now : ℕ) (v : ℚ) :
    alookup (NewKPAMetricsClient.UpdateMetricIntoWindow key now v).panicWindowDict key
      = some ((NewTimeWindow 10 1).Record now v)
    ∧ alookup (NewKPAMetricsClient.UpdateMetricIntoWindow key now v).stableWindowDict key
      = some ((NewTimeWindow 60 1).Record now v)
    ∧ (NewKPAMetricsClient.UpdateMetricIntoWindow key now v).StableAndPanicMetrics key now
      = .ok (v, v) :=
  ⟨kpa_first_update_panic_lookup key now v, kpa_first_update_stable_lookup key now v,
    kpa_first_update_eval key now v⟩

theorem foldl_add_eq_sum (l : List ℚ) (a : ℚ) : l.foldl (fun x y => x + y) a = a + l.sum := by
  induction l generalizing a with
  | nil => simp
  | cons hd tl ih => simp [ih, add_assoc]

/-- Claim C4: both UpdatePodListMetric variants record the sum of the
per-instance values (not their mean) as the single sample forwarded to
UpdateMetricIntoWindow; an empty list is accepted and records 0, and
[1, 2, 3] records 6 (the sum, where the mean would be 2). -/
theorem updatePodListMetric_records_sum (ck : KPAMetricsClient) (ca : APAMetricsClient)
    (values : List ℚ) (key : NamespaceNameMetric) (now : ℕ) :
    ck.UpdatePodListMetric values key now = ck.UpdateMetricIntoWindow key now values.sum
    ∧ ca.UpdatePodListMetric values key now = ca.UpdateMetricIntoWindow key now values.sum
    ∧ (NewKPAMetricsClient.UpdatePodListMetric [] key now).StableAndPanicMetrics key now
        = .ok (0, 0)
    ∧ (NewKPAMetricsClient.UpdatePodListMetric [1, 2, 3] key now).StableAndPanicMetrics key now
        = .ok (6, 6) := by
  refine ⟨?_, ?_, ?_, ?_⟩
  · simp [KPAMetricsClient.UpdatePodListMetric, foldl_add_eq_sum]
  · simp [APAMetricsClient.UpdatePodListMetric, foldl_add_eq_sum]
  · have h : NewKPAMetricsClient.UpdatePodListMetric [] key now
        = NewKPAMetricsClient.UpdateMetricIntoWindow key now 0 := by
      simp [KPAMetricsClient.UpdatePodListMetric]
    rw [h]
    exact kpa_first_update_eval key now 0
  · have h : NewKPAMetricsClient.UpdatePodListMetric [1, 2, 3] key now
        = NewKPAMetricsClient.UpdateMetricIntoWindow key now 6 := by
      norm_num [KPAMetricsClient.UpdatePodListMetric, List.foldl]
    rw [h]
    exact kpa_first_update_eval key now 6

/-- Claim C10: the base-client UpdatePodListMetric panics unconditionally
with "implement me" for every input; it never reaches its error-return path. -/
theorem base_updatePodListMetric_panics (metricValues : List ℚ)
    (metricKey : NamespaceNameMetric) (now : ℕ) :
    PodMetricClient.UpdatePodListMetric metricValues metricKey now = .panicked "implement me"
    ∧ ∀ r, PodMetricClient.UpdatePodListMetric metricValues metricKey now ≠ .returned r :=
  ⟨rfl, fun _ h => GoOutcome.noConfusion h⟩

/-- Witness for C10: the panic outcome at one concrete input. -/
theorem base_updatePodListMetric_panics_witness :
    PodMetricClient.UpdatePodListMetric [] demoKey 0 = .panicked "implement me" :=
  (base_updatePodListMetric_panics [] demoKey 0).1

/-- Claim C5: updatePodRecordLocked enforces the scope invariant — a
pod-scope update with a non-empty model name and a pod-model-scope update with
an empty model name both fail with a scope-mismatch error, and in either
failure case the tables are returned unmodified. -/
theorem updatePodRecordLocked_scope_invariant (t : MetricTables)
    (podName modelName metricName : String) (v : MetricValue) :
    (modelName ≠ "" →
      updatePodRecordLocked t podName modelName metricName .podMetricScope v
        = (some (.scopeMismatch "modelName should be empty for scope PodMetricScope"), t))
    ∧ (modelName = "" →
      updatePodRecordLocked t podName modelName metricName .podModelMetricScope v
        = (some (.scopeMismatch "modelName should not be empty for scope PodModelMetricScope"), t)) := by
  constructor
  · intro h
    simp [updatePodRecordLocked, h]
  · intro h
    simp [updatePodRecordLocked, h]

/-- Witness for C5: a pod-scope update carrying the model name model-x fails
with the scope-mismatch error and leaves the one-record demo table exactly as
it was. -/
theorem updatePodRecordLocked_scope_invariant_witness :
    updatePodRecordLocked demoTables "pod-a" "model-x" "qps" .podMetricScope (.simple 7)
      = (some (.scopeMismatch "modelName should be empty for scope PodMetricScope"), demoTables) :=
  (updatePodRecordLocked_scope_invariant demoTables "pod-a" "model-x" "qps" (.simple 7)).1
    (by decide)

/-- Counterexample to claim C7 as stated: the loop does not always take the
one-shot alignment delay. At a start time 0.1s past a boundary (interval 10s,
maximum tolerated offset 500ms — the repository constants are defined outside
the given sources; the branch condition is in the source and any tolerated
offset exhibits the behavior), the choice is the immediate periodic ticker,
not the alignTimer the claim prescribes, and the first tick then fires 0.1s
past the next wall-clock boundary. -/
theorem initTraceCacheTickChoice_not_always_aligned :
    initTraceCacheTickChoice 100000000 10000000000 500000000 = .tickerNow
    ∧ initTraceCacheTickChoice 100000000 10000000000 500000000
        ≠ .alignTimer (10000000000 - 100000000)
    ∧ firstTickTime 100000000 10000000000 .tickerNow % 10000000000 = 100000000
    ∧ (100000000 : ℕ) ≠ 0 := by
  refine ⟨by decide, by decide, by decide, by decide⟩

/-- Claim C7 (amended): the trace loop takes the one-shot alignment delay of
(interval - offset) — after which the first tick lands exactly on a wall-clock
boundary — only when the offset of the start time into the interval exceeds
the maximum tolerated offset; otherwise the periodic ticker starts
immediately and the first tick fires one full interval after the start time. -/
theorem initTraceCacheTickChoice_alignment (nowNanos interval maxOffset : ℕ)
    (hpos : 0 < interval) :
    (nowNanos % interval > maxOffset →
      initTraceCacheTickChoice nowNanos interval maxOffset
        = .alignTimer (interval - nowNanos % interval)
      ∧ firstTickTime nowNanos interval
          (initTraceCacheTickChoice nowNanos interval maxOffset) % interval = 0)
    ∧ (nowNanos % interval ≤ maxOffset →
      initTraceCacheTickChoice nowNanos interval maxOffset = .tickerNow
      ∧ firstTickTime nowNanos interval
          (initTraceCacheTickChoice nowNanos interval maxOffset)
        = nowNanos + interval) := by
  constructor
  · intro h
    have hc : initTraceCacheTickChoice nowNanos interval maxOffset
        = .alignTimer (interval - nowNanos % interval) := by
      simp [initTraceCacheTickChoice, h]
    refine ⟨hc, ?_⟩
    rw [hc]
    show (nowNanos + (interval - nowNanos % interval)) % interval = 0
    have h1 : nowNanos % interval ≤ nowNanos := Nat.mod_le nowNanos interval
    have h2 : nowNanos % interval < interval := Nat.mod_lt nowNanos hpos
    have h3 : nowNanos - nowNanos % interval = interval * (nowNanos / interval) := by
      have := Nat.div_add_mod nowNanos interval
      omega
    have h4 : nowNanos + (interval - nowNanos % interval)
        = interval * (nowNanos / interval + 1) := by
      have := Nat.div_add_mod nowNanos interval
      have hm : interval * (nowNanos / interval + 1)
          = interval * (nowNanos / interval) + interval := by ring
      omega
    rw [h4]
    exact Nat.mul_mod_right interval _
  · intro h
    have hc : initTraceCacheTickChoice nowNanos interval maxOffset = .tickerNow := by
      simp [initTraceCacheTickChoice, Nat.not_lt.mpr h]
    exact ⟨hc, by rw [hc]; rfl⟩

/-- Witness for C7 (amended): at start time 9.6s (offset 9.6s > 500ms into a
10s interval) the alignment delay of 0.4s is taken and the first tick lands on
the 10s boundary; at start time 0.1s the ticker starts immediately. -/
theorem initTraceCacheTickChoice_alignment_witness :
    (initTraceCacheTickChoice 9600000000 10000000000 500000000
        = .alignTimer 400000000
      ∧ firstTickTime 9600000000 10000000000
          (initTraceCacheTickChoice 9600000000 10000000000 500000000) % 10000000000 = 0)
    ∧ (initTraceCacheTickChoice 100000000 10000000000 500000000 = .tickerNow
      ∧ firstTickTime 100000000 10000000000
          (initTraceCacheTickChoice 100000000 10000000000 500000000)
        = 100000000 + 10000000000) := by
  constructor
  · have h := (initTraceCacheTickChoice_alignment 9600000000 10000000000 500000000
      (by norm_num)).1 (by norm_num)
    simpa using h
  · exact (initTraceCacheTickChoice_alignment 100000000 10000000000 500000000
      (by norm_num)).2 (by norm_num)

theorem wrap64_of_fits (z : ℤ) (h0 : 0 ≤ z) (h1 : z < 2 ^ 63) : wrap64 z = z := by
  unfold wrap64
  omega

/-- Counterexample to claim C8 as stated: the environment value
4611686018427387904 (= 2^62, well within int64) parses as a positive integer,
yet the returned interval is 0 nanoseconds — not n milliseconds — because the
multiplication by time.Millisecond overflows int64 and wraps to zero. -/
theorem getPodMetricRefreshInterval_overflow_counterexample :
    atoi "4611686018427387904" = some 4611686018427387904
    ∧ (0 : ℤ) < 4611686018427387904
    ∧ getPodMetricRefreshInterval "4611686018427387904" = 0
    ∧ (4611686018427387904 : ℤ) * 1000000 ≠ 0 := by
  refine ⟨by decide, by decide, by decide, by decide⟩

/-- Claim C8 (amended): the refresh-interval resolution returns the default
50ms (= 50000000 ns) when the environment value is unset (empty), fails to
parse as an integer, or parses non-positive; when it parses as a positive
integer n it returns n milliseconds computed with int64 wraparound — which
equals exactly n milliseconds whenever n * 10^6 nanoseconds fits in int64. -/
theorem getPodMetricRefreshInterval_cases (value : String) :
    (value = "" → getPodMetricRefreshInterval value = 50000000)
    ∧ (atoi value = none → getPodMetricRefreshInterval value = 50000000)
    ∧ (∀ n, atoi value = some n → n ≤ 0 → getPodMetricRefreshInterval value = 50000000)
    ∧ (∀ n, atoi value = some n → 0 < n →
        getPodMetricRefreshInterval value = wrap64 (n * 1000000))
    ∧ (∀ n, atoi value = some n → 0 < n → n * 1000000 < 2 ^ 63 →
        getPodMetricRefreshInterval value = n * 1000000) := by
  have hpos : ∀ n : ℤ, atoi value = some n → 0 < n →
      getPodMetricRefreshInterval value = wrap64 (n * 1000000) := by
    intro n h hn
    by_cases hv : value = ""
    · subst hv
      simp [atoi] at h
    · simp [getPodMetricRefreshInterval, hv, h, if_neg (not_le.mpr hn)]
  refine ⟨?_, ?_, ?_, hpos, ?_⟩
  · intro h
    subst h
    decide
  · intro h
    by_cases hv : value = ""
    · subst hv
      decide
    · simp [getPodMetricRefreshInterval, hv, h]
      decide
  · intro n h hn
    by_cases hv : value = ""
    · subst hv
      simp [atoi] at h
    · simp [getPodMetricRefreshInterval, hv, h, if_pos hn]
      decide
  · intro n h hn hfit
    rw [hpos n h hn]
    exact wrap64_of_fits _ (le_of_lt (mul_pos hn (by norm_num))) hfit

/-- Witness for C8 (amended): the value 100 parses as the positive integer 100
and yields 100ms = 100000000 ns; the empty (unset) value yields the 50ms
default. -/
theorem getPodMetricRefreshInterval_cases_witness :
    getPodMetricRefreshInterval "100" = 100 * 1000000
    ∧ getPodMetricRefreshInterval "" = 50000000 :=
  ⟨(getPodMetricRefreshInterval_cases "100").2.2.2.2 100 (by decide) (by decide) (by decide),
   (getPodMetricRefreshInterval_cases "").1 rfl⟩

/-! ## Refresh pipeline lemmas -/

theorem updatePodMetrics_tables (cfg : Config) (s : Store) :
    (updatePodMetrics cfg s).1.tables
      = (s.pods.filter (fun p => p.ready)).foldl (updateOnePod cfg s.podToModelMapping)
          s.tables := by
  unfold updatePodMetrics
  by_cases h : (s.pods.filter (fun p => p.ready)).length = 0
  · have he : s.pods.filter (fun p => p.ready) = [] := List.length_eq_zero.mp h
    simp [h, he]
  · simp [h]

theorem updatePodMetrics_events (cfg : Config) (s : Store) :
    (updatePodMetrics cfg s).2
      = [Event.lock]
        ++ (s.pods.filter (fun p => p.ready)).map (fun p => Event.podUpdate p.name)
        ++ [Event.unlock] := by
  unfold updatePodMetrics
  by_cases h : (s.pods.filter (fun p => p.ready)).length = 0
  · have he : s.pods.filter (fun p => p.ready) = [] := List.length_eq_zero.mp h
    simp [h, he]
  · simp [h]

theorem rowsPreserved_refl (p : String) (t : MetricTables) : RowsPreserved p t t :=
  ⟨fun _ => rfl, fun _ _ => rfl⟩

theorem rowsPreserved_trans (p : String) (t1 t2 t3 : MetricTables)
    (h12 : RowsPreserved p t1 t2) (h23 : RowsPreserved p t2 t3) : RowsPreserved p t1 t3 :=
  ⟨fun m => (h23.1 m).trans (h12.1 m), fun mo m => (h23.2 mo m).trans (h12.2 mo m)⟩

theorem foldl_rowsPreserved {α : Type} (p : String) (f : MetricTables → α → MetricTables)
    (l : List α) (h : ∀ t a, a ∈ l → RowsPreserved p t (f t a)) (t : MetricTables) :
    RowsPreserved p t (l.foldl f t) := by
  induction l generalizing t with
  | nil => exact rowsPreserved_refl p t
  | cons hd tl ih =>
    rw [List.foldl_cons]
    exact rowsPreserved_trans p _ _ _ (h t hd (by simp))
      (ih (fun t a ha => h t a (by simp [ha])) (f t hd))

theorem foldl_id_of_fix {β α : Type} (f : β → α → β) (l : List α)
    (h : ∀ t a, f t a = t) (t : β) : l.foldl f t = t := by
  induction l generalizing t with
  | nil => rfl
  | cons hd tl ih =>
    rw [List.foldl_cons, h]
    exact ih t

theorem rowsPreserved_updatePodRecordLocked (t : MetricTables)
    (podName modelName metricName : String) (scope : MetricScope) (v : MetricValue)
    (p : String) (hp : p ≠ podName) :
    RowsPreserved p t (updatePodRecordLocked t podName modelName metricName scope v).2 := by
  cases scope with
  | podMetricScope =>
    by_cases h : modelName ≠ ""
    · simp only [updatePodRecordLocked, if_pos h]
      exact rowsPreserved_refl p t
    · simp only [updatePodRecordLocked, if_neg h]
      constructor
      · intro m
        simp only [podMetricLookup]
        rw [alookup_aset_ne _ _ _ _ hp]
      · intro mo m
        simp [podModelMetricLookup]
  | podModelMetricScope =>
    by_cases h : modelName = ""
    · simp only [updatePodRecordLocked, if_pos h]
      exact rowsPreserved_refl p t
    · simp only [updatePodRecordLocked, if_neg h]
      constructor
      · intro m
        simp [podMetricLookup]
      · intro mo m
        simp only [podModelMetricLookup]
        rw [alookup_aset_ne _ _ _ _ hp]

theorem rowsPreserved_updateSimple (cfg : Config) (pod : Pod) (allMetrics : AllMetrics)
    (t : MetricTables) (p : String) (hp : p ≠ pod.name) :
    RowsPreserved p t (updateSimpleMetricFromRawMetricsLocked cfg pod allMetrics t) := by
  apply foldl_rowsPreserved
  intro t1 metricName _
  cases hr : alookup cfg.registry metricName with
  | none =>
    simp only [hr]
    exact rowsPreserved_refl p t1
  | some metric =>
    simp only [hr]
    cases hf : alookup allMetrics ("vllm:" ++ metricName) with
    | none =>
      simp only [hf]
      exact rowsPreserved_refl p t1
    | some metricFamily =>
      simp only [hf]
      apply foldl_rowsPreserved
      intro t2 familyMetric _
      cases hcg : familyMetric.counterGaugeValue with
      | error e =>
        simp only [hcg]
        exact rowsPreserved_refl p t2
      | ok mv =>
        simp only [hcg]
        exact rowsPreserved_updatePodRecordLocked t2 pod.name _ _ _ _ p hp

theorem rowsPreserved_updateHistogram (cfg : Config) (pod : Pod) (allMetrics : AllMetrics)
    (t : MetricTables) (p : String) (hp : p ≠ pod.name) :
    RowsPreserved p t (updateHistogramMetricFromRawMetricsLocked cfg pod allMetrics t) := by
  apply foldl_rowsPreserved
  intro t1 metricName _
  cases hr : alookup cfg.registry metricName with
  | none =>
    simp only [hr]
    exact rowsPreserved_refl p t1
  | some metric =>
    simp only [hr]
    cases hf : alookup allMetrics ("vllm:" ++ metricName) with
    | none =>
      simp only [hf]
      exact rowsPreserved_refl p t1
    | some metricFamily =>
      simp only [hf]
      apply foldl_rowsPreserved
      intro t2 familyMetric _
      cases hcg : familyMetric.histogramValue with
      | error e =>
        simp only [hcg]
        exact rowsPreserved_refl p t2
      | ok h =>
        simp only [hcg]
        exact rowsPreserved_updatePodRecordLocked t2 pod.name _ _ _ _ p hp

theorem rowsPreserved_updateQueryLabel (cfg : Config) (pod : Pod) (allMetrics : AllMetrics)
    (t : MetricTables) (p : String) (hp : p ≠ pod.name) :
    RowsPreserved p t (updateQueryLabelMetricFromRawMetricsLocked cfg pod allMetrics t) := by
  apply foldl_rowsPreserved
  intro t1 labelMetricName _
  cases hr : alookup cfg.registry labelMetricName with
  | none =>
    simp only [hr]
    exact rowsPreserved_refl p t1
  | some metric =>
    simp only [hr]
    cases hf : alookup allMetrics ("vllm:" ++ metric.rawMetricName) with
    | none =>
      simp only [hf]
      exact rowsPreserved_refl p t1
    | some metricFamily =>
      simp only [hf]
      apply foldl_rowsPreserved
      intro t2 familyMetric _
      exact rowsPreserved_updatePodRecordLocked t2 pod.name _ _ _ _ p hp

theorem updateSimple_empty (cfg : Config) (pod : Pod) (t : MetricTables) :
    updateSimpleMetricFromRawMetricsLocked cfg pod [] t = t := by
  apply foldl_id_of_fix
  intro t1 metricName
  cases hr : alookup cfg.registry metricName with
  | none => simp only [hr]
  | some metric => simp only [hr, alookup]

theorem updateHistogram_empty (cfg : Config) (pod : Pod) (t : MetricTables) :
    updateHistogramMetricFromRawMetricsLocked cfg pod [] t = t := by
  apply foldl_id_of_fix
  intro t1 metricName
  cases hr : alookup cfg.registry metricName with
  | none => simp only [hr]
  | some metric => simp only [hr, alookup]

theorem updateQueryLabel_empty (cfg : Config) (pod : Pod) (t : MetricTables) :
    updateQueryLabelMetricFromRawMetricsLocked cfg pod [] t = t := by
  apply foldl_id_of_fix
  intro t1 labelMetricName
  cases hr : alookup cfg.registry labelMetricName with
  | none => simp only [hr]
  | some metric => simp only [hr, alookup]

theorem rowsPreserved_initPodEntries (t : MetricTables) (n p : String) :
    RowsPreserved p t (initPodEntries t n) := by
  have step1 : ∀ t0 : MetricTables, ((alookup t0.podMetrics n).getD []).length = 0 →
      RowsPreserved p t0 { t0 with podMetrics := aset t0.podMetrics n [] } := by
    intro t0 hlen
    constructor
    · intro m
      by_cases hp : p = n
      · subst hp
        simp only [podMetricLookup]
        rw [alookup_aset_self]
        cases hl : alookup t0.podMetrics p with
        | none => simp [alookup]
        | some inner =>
          rw [hl] at hlen
          have hin : inner = [] := List.length_eq_zero.mp (by simpa using hlen)
          simp [hin, alookup]
      · simp only [podMetricLookup]
        rw [alookup_aset_ne _ _ _ _ hp]
    · intro mo m
      simp [podModelMetricLookup]
  have step2 : ∀ t0 : MetricTables, ((alookup t0.podModelMetrics n).getD []).length = 0 →
      RowsPreserved p t0 { t0 with podModelMetrics := aset t0.podModelMetrics n [] } := by
    intro t0 hlen
    constructor
    · intro m
      simp [podMetricLookup]
    · intro mo m
      by_cases hp : p = n
      · subst hp
        simp only [podModelMetricLookup]
        rw [alookup_aset_self]
        cases hl : alookup t0.podModelMetrics p with
        | none => simp [alookup]
        | some mid =>
          rw [hl] at hlen
          have hin : mid = [] := List.length_eq_zero.mp (by simpa using hlen)
          simp [hin, alookup]
      · simp only [podModelMetricLookup]
        rw [alookup_aset_ne _ _ _ _ hp]
  unfold initPodEntries
  by_cases h1 : ((alookup t.podMetrics n).getD []).length = 0
  · rw [if_pos h1]
    by_cases h2 : ((alookup ({ t with podMetrics := aset t.podMetrics n [] }
        : MetricTables).podModelMetrics n).getD []).length = 0
    · rw [if_pos h2]
      exact rowsPreserved_trans p _ _ _ (step1 t h1) (step2 _ h2)
    · rw [if_neg h2]
      exact step1 t h1
  · rw [if_neg h1]
    by_cases h2 : ((alookup t.podModelMetrics n).getD []).length = 0
    · rw [if_pos h2]
      exact step2 t h2
    · rw [if_neg h2]
      exact rowsPreserved_refl p t

theorem updateOnePod_parse_error (cfg : Config)
    (mapping : List (String × List String)) (t : MetricTables) (pod : Pod) (e : String)
    (hprom : cfg.promQuery = none)
    (hfail : cfg.parseMetricsURL (podScrapeURL pod) = .error e) :
    updateOnePod cfg mapping t pod = initPodEntries t pod.name := by
  simp only [updateOnePod, hfail, hprom, updateSimple_empty, updateHistogram_empty,
    updateQueryLabel_empty]

theorem rowsPreserved_updateOnePod (cfg : Config)
    (mapping : List (String × List String)) (t : MetricTables) (pod : Pod) (p : String)
    (hprom : cfg.promQuery = none) (hp : p ≠ pod.name) :
    RowsPreserved p t (updateOnePod cfg mapping t pod) := by
  simp only [updateOnePod, hprom]
  cases hparse : cfg.parseMetricsURL (podScrapeURL pod) with
  | error e =>
    simp only [hparse]
    exact rowsPreserved_trans p _ _ _ (rowsPreserved_initPodEntries t pod.name p)
      (rowsPreserved_trans p _ _ _ (rowsPreserved_updateSimple cfg pod [] _ p hp)
        (rowsPreserved_trans p _ _ _ (rowsPreserved_updateHistogram cfg pod [] _ p hp)
          (rowsPreserved_updateQueryLabel cfg pod [] _ p hp)))
  | ok m =>
    simp only [hparse]
    exact rowsPreserved_trans p _ _ _ (rowsPreserved_initPodEntries t pod.name p)
      (rowsPreserved_trans p _ _ _ (rowsPreserved_updateSimple cfg pod m _ p hp)
        (rowsPreserved_trans p _ _ _ (rowsPreserved_updateHistogram cfg pod m _ p hp)
          (rowsPreserved_updateQueryLabel cfg pod m _ p hp)))

/-- Counterexample to claim C6 as stated: per-instance fetch failure is not
isolated in PodMetricClient.GetMetricsFromPods — with pod-a failing and pod-b
succeeding, the whole batch aborts with the error of pod-a instead of returning
the pod-b metric, although pod-b alone would succeed. -/
theorem getMetricsFromPods_aborts_on_first_failure :
    PodMetricClient.GetMetricsFromPods demoFetch ["pod-a", "pod-b"] = .error "fetch failed"
    ∧ PodMetricClient.GetMetricsFromPods demoFetch ["pod-b"] = .ok [1] := by
  refine ⟨by decide, by decide⟩

/-- Claim C6 (amended): in the store refresh pipeline (updatePodMetrics)
scrape failure is isolated — when the scrape-and-parse of one ready pod fails, the
cycle still processes every ready pod (the event trace covers them all), and
the failing pod contributes nothing: all its visible rows in both metric
tables are exactly as before the cycle. (Stated for distinct pod names, which
Go map keys guarantee, and with no Prometheus backend, whose queries do not go
through the scrape path.) By contrast, the podautoscaler client fetch helper
GetMetricsFromPods is not isolated: it aborts at the first failed fetch. -/
theorem updatePodMetrics_isolates_scrape_failure (cfg : Config) (s : Store) (pod : Pod)
    (e : String)
    (hprom : cfg.promQuery = none)
    (hnodup : ((s.pods.filter (fun p => p.ready)).map Pod.name).Nodup)
    (hmem : pod ∈ s.pods) (hready : pod.ready = true)
    (hfail : cfg.parseMetricsURL (podScrapeURL pod) = .error e) :
    ((updatePodMetrics cfg s).2
      = [Event.lock]
        ++ (s.pods.filter (fun p => p.ready)).map (fun p => Event.podUpdate p.name)
        ++ [Event.unlock])
    ∧ (∀ m, podMetricLookup (updatePodMetrics cfg s).1.tables pod.name m
        = podMetricLookup s.tables pod.name m)
    ∧ (∀ model m, podModelMetricLookup (updatePodMetrics cfg s).1.tables pod.name model m
        = podModelMetricLookup s.tables pod.name model m) := by
  have hmemf : pod ∈ s.pods.filter (fun p => p.ready) :=
    List.mem_filter.mpr ⟨hmem, by simp [hready]⟩
  obtain ⟨l1, l2, hsplit⟩ := List.append_of_mem hmemf
  have hnodup2 : ((l1 ++ pod :: l2).map Pod.name).Nodup := by
    rw [← hsplit]
    exact hnodup
  rw [List.map_append, List.map_cons] at hnodup2
  have hl1 : ∀ q ∈ l1, q.name ≠ pod.name := by
    intro q hq hqn
    have h1 : pod.name ∈ l1.map Pod.name := by
      rw [← hqn]
      exact List.mem_map_of_mem _ hq
    exact (List.nodup_append.mp hnodup2).2.2 h1 (by simp)
  have hl2 : ∀ q ∈ l2, q.name ≠ pod.name := by
    intro q hq hqn
    have hr := (List.nodup_append.mp hnodup2).2.1
    rw [List.nodup_cons] at hr
    exact hr.1 (by rw [← hqn]; exact List.mem_map_of_mem _ hq)
  have hstep1 : RowsPreserved pod.name s.tables
      (l1.foldl (updateOnePod cfg s.podToModelMapping) s.tables) :=
    foldl_rowsPreserved pod.name (updateOnePod cfg s.podToModelMapping) l1
      (fun t q hq => rowsPreserved_updateOnePod cfg s.podToModelMapping t q pod.name hprom
        (fun hh => hl1 q hq hh.symm)) s.tables
  have hstep2 : RowsPreserved pod.name
      (l1.foldl (updateOnePod cfg s.podToModelMapping) s.tables)
      (updateOnePod cfg s.podToModelMapping
        (l1.foldl (updateOnePod cfg s.podToModelMapping) s.tables) pod) := by
    rw [updateOnePod_parse_error cfg s.podToModelMapping _ pod e hprom hfail]
    exact rowsPreserved_initPodEntries _ pod.name pod.name
  have hstep3 : RowsPreserved pod.name
      (updateOnePod cfg s.podToModelMapping
        (l1.foldl (updateOnePod cfg s.podToModelMapping) s.tables) pod)
      (l2.foldl (updateOnePod cfg s.podToModelMapping)
        (updateOnePod cfg s.podToModelMapping
          (l1.foldl (updateOnePod cfg s.podToModelMapping) s.tables) pod)) :=
    foldl_rowsPreserved pod.name (updateOnePod cfg s.podToModelMapping) l2
      (fun t q hq => rowsPreserved_updateOnePod cfg s.podToModelMapping t q pod.name hprom
        (fun hh => hl2 q hq hh.symm)) _
  have hrows : RowsPreserved pod.name s.tables
      ((s.pods.filter (fun p => p.ready)).foldl (updateOnePod cfg s.podToModelMapping)
        s.tables) := by
    rw [hsplit, List.foldl_append, List.foldl_cons]
    exact rowsPreserved_trans _ _ _ _ hstep1 (rowsPreserved_trans _ _ _ _ hstep2 hstep3)
  refine ⟨updatePodMetrics_events cfg s, ?_, ?_⟩
  · intro m
    rw [updatePodMetrics_tables]
    exact hrows.1 m
  · intro model m
    rw [updatePodMetrics_tables]
    exact hrows.2 model m

/-- Witness for C6 (amended): with the always-failing scraper, the cycle over
pods a and b still updates both pods in the trace and the row view of pod-a is
unchanged. -/
theorem updatePodMetrics_isolates_scrape_failure_witness :
    podMetricLookup (updatePodMetrics demoCfg demoStore).1.tables "pod-a" "qps"
      = podMetricLookup demoStore.tables "pod-a" "qps"
    ∧ (updatePodMetrics demoCfg demoStore).2
      = [Event.lock, Event.podUpdate "pod-a", Event.podUpdate "pod-b", Event.unlock] := by
  have h := updatePodMetrics_isolates_scrape_failure demoCfg demoStore demoPodA
    "connection refused" rfl (by decide) (by decide) (by decide) rfl
  refine ⟨h.2.1 "qps", ?_⟩
  rw [h.1]
  rfl

/-- Counterexample to claim C9 as stated: in a two-pod refresh cycle the
exclusive lock is never released between the two per-instance updates — the
trace is lock, update pod-a, update pod-b, unlock — so the lock is held across
the whole cycle, not only for the duration of each single instance update. -/
theorem updatePodMetrics_lock_not_released_between_updates :
    lockReleasedBetweenUpdates ((updatePodMetrics demoCfg demoStore).2) = false
    ∧ (updatePodMetrics demoCfg demoStore).2
      = [Event.lock, Event.podUpdate "pod-a", Event.podUpdate "pod-b", Event.unlock] := by
  refine ⟨by decide, by decide⟩

/-- Claim C9 (amended): updatePodMetrics acquires the exclusive lock once per
refresh cycle and holds it across every per-instance update: the cycle trace
is exactly one lock, then the per-pod updates, then one unlock, and no event
among the per-pod updates releases or re-acquires the lock. Readers are
serialized against the whole cycle (each per-instance update is a fortiori
atomic relative to readers); they cannot interleave between per-instance
updates. -/
theorem updatePodMetrics_lock_spans_cycle (cfg : Config) (s : Store) :
    (updatePodMetrics cfg s).2
      = [Event.lock]
        ++ (s.pods.filter (fun p => p.ready)).map (fun p => Event.podUpdate p.name)
        ++ [Event.unlock]
    ∧ ∀ ev ∈ (s.pods.filter (fun p => p.ready)).map (fun p => Event.podUpdate p.name),
        ev ≠ Event.unlock ∧ ev ≠ Event.lock := by
  refine ⟨updatePodMetrics_events cfg s, ?_⟩
  intro ev hmem
  obtain ⟨q, _, hq⟩ := List.mem_map.mp hmem
  subst hq
  exact ⟨fun h => Event.noConfusion h, fun h => Event.noConfusion h⟩

/-- Witness for C9 (amended): the concrete two-pod cycle trace, and the first
per-pod update event is not an unlock. -/
theorem updatePodMetrics_lock_spans_cycle_witness :
    (updatePodMetrics demoCfg demoStore).2
      = [Event.lock, Event.podUpdate "pod-a", Event.podUpdate "pod-b", Event.unlock]
    ∧ Event.podUpdate "pod-a" ≠ Event.unlock := by
  have h := updatePodMetrics_lock_spans_cycle demoCfg demoStore
  refine ⟨by rw [h.1]; rfl, (h.2 (Event.podUpdate "pod-a") (by decide)).1⟩

end Aibrix
